import Mathlib

/-!
Verification of the tool-augmented generation orchestration loop of
`backend/ai_generator.py` (class `AIGenerator`) and of the filtered vector
retrieval layer, against the repository's natural-language specification.

The generation engine (`anthropic.Anthropic.messages.create`) is an external
collaborator; it is modelled as an oracle `Engine : Nat → Response` giving the
response to the n-th engine call, exactly as the repository's own tests mock it
(`side_effect` lists).  All side effects of `generate_response` — the sequence
of API requests issued and the tool rounds executed — are returned explicitly
in a `GenResult` trace.  Tool execution that can raise is modelled with
`Except`: `Except.error e` stands for a raised exception whose `str` is `e`.
Constant request fields that are identical on every call (`model`,
`temperature`, `max_tokens`) are elided from `ApiParams`.
-/

/-- Arguments of a tool call (`content_block.input`, a kwargs dict; the
orchestrator passes it through opaquely). -/
abbrev ToolInput := List (String × String)

/-- A content block of an engine response: either `{type: "text", text}` or
`{type: "tool_use", name, input, id}`. -/
inductive ContentBlock where
  | text (text : String)
  | toolUse (name : String) (input : ToolInput) (id : String)
deriving DecidableEq, Repr

/-- The `.text` attribute of a content block; `none` models the Python
`AttributeError` raised when the block is not a text block. -/
def ContentBlock.textOf : ContentBlock → Option String
  | .text t => some t
  | .toolUse _ _ _ => none

/-- A tool-use request extracted from a content block. -/
structure ToolUseCall where
  name : String
  input : ToolInput
  id : String
deriving DecidableEq, Repr

/-- A tool-result block `{type: "tool_result", tool_use_id, content}`
(the constant `"type"` field is elided). -/
structure ToolResult where
  tool_use_id : String
  content : String
deriving DecidableEq, Repr

/-- An engine response: `stop_reason` and ordered content blocks. -/
structure Response where
  stop_reason : String
  content : List ContentBlock
deriving DecidableEq, Repr

/-- The content of a transcript turn: a plain string, assistant content
blocks, or a list of tool-result blocks. -/
inductive MessageContent where
  | text (s : String)
  | blocks (bs : List ContentBlock)
  | results (rs : List ToolResult)
deriving DecidableEq, Repr

/-- One transcript turn (`{"role": ..., "content": ...}`). -/
structure Message where
  role : String
  content : MessageContent
deriving DecidableEq, Repr

/-- A tool schema as passed to the engine (its payload is opaque to
`ai_generator.py`; only presence/absence matters here). -/
structure ToolSchema where
  name : String
deriving DecidableEq, Repr

/-- One engine request, as assembled in `api_params` / `final_params`:
`tools = none` models the `"tools"` key being absent from the request dict,
and likewise for `tool_choice`. -/
structure ApiParams where
  messages : List Message
  system : String
  tools : Option (List ToolSchema)
  tool_choice : Option String
deriving DecidableEq, Repr

/-- The engine oracle: response to the n-th `messages.create` call. -/
abbrev Engine := Nat → Response

/-- The tool dispatcher's `execute_tool(name, **kwargs)`:
`Except.error e` models a raised exception with message `e`. -/
abbrev ToolManager := String → ToolInput → Except String String

/-- Everything observable about one call to `generate_response`: the returned
text (`none` models an uncaught `AttributeError`/`IndexError` while reading
`response.content[0].text`), the engine requests issued in order, and for each
executed tool round the response processed together with the tool results
produced. -/
structure GenResult where
  result : Option String
  calls : List ApiParams
  rounds : List (Response × List ToolResult)
deriving DecidableEq, Repr

/-- `response.content[0].text`, fallibly. -/
def headText (r : Response) : Option String :=
  r.content.head?.bind ContentBlock.textOf

/-- Character-list equality test of a candidate against the front of a list. -/
def listHasPre : List Char → List Char → Bool
  | [], _ => true
  | _ :: _, [] => false
  | a :: t, b :: h => a == b && listHasPre t h

/-- Substring containment on character lists (`needle in hay`). -/
def listHasSub (needle : List Char) : List Char → Bool
  | [] => needle.isEmpty
  | c :: h => listHasPre needle (c :: h) || listHasSub needle h

/-- Python's `str.lower`, restricted to the ASCII case mapping (the only case
relevant to the `"failed"` marker). -/
def strLower (s : String) : String :=
  String.mk (s.data.map Char.toLower)

/-- The failure marker test of `_execute_single_tool_round`:
`"failed" in tool_result.lower()`. -/
def containsFailed (s : String) : Bool :=
  listHasSub "failed".data (strLower s).data

/-- The tool-use blocks of a response's content, in order. -/
def toolUseBlocks : List ContentBlock → List ToolUseCall
  | [] => []
  | ContentBlock.text _ :: rest => toolUseBlocks rest
  | ContentBlock.toolUse n i idArg :: rest => ⟨n, i, idArg⟩ :: toolUseBlocks rest

/-- `any(block.type == "tool_use" for block in content)`. -/
def hasToolUse (bs : List ContentBlock) : Bool :=
  bs.any fun b =>
    match b with
    | ContentBlock.toolUse _ _ _ => true
    | ContentBlock.text _ => false

/-- The body of the per-call branch of `_execute_single_tool_round`: the
tool-result block appended for one tool call, and whether that call set
`has_failures` (an exception, or a successful string result containing the
`"failed"` marker case-insensitively). -/
def mkToolResult (tm : ToolManager) (b : ToolUseCall) : ToolResult × Bool :=
  match tm b.name b.input with
  | Except.ok res => (⟨b.id, res⟩, containsFailed res)
  | Except.error e => (⟨b.id, "Tool execution failed: " ++ e⟩, true)

/-- `AIGenerator._execute_single_tool_round`: execute every tool-use block of
the response's content in order, collecting one tool result per call and the
`has_failures` flag. -/
def execute_single_tool_round (tm : ToolManager) : List ContentBlock → List ToolResult × Bool
  | [] => ([], false)
  | ContentBlock.text _ :: rest => execute_single_tool_round tm rest
  | ContentBlock.toolUse n i idArg :: rest =>
    let pr := mkToolResult tm ⟨n, i, idArg⟩
    let r := execute_single_tool_round tm rest
    (pr.1 :: r.1, pr.2 || r.2)

/-- `MAX_ROUNDS` of `_handle_sequential_tool_execution`. -/
def MAX_ROUNDS : Nat := 2

/-- The `while current_round <= MAX_ROUNDS` loop of
`_handle_sequential_tool_execution`, with the loop's remaining-iteration bound
made explicit as structural fuel (`fuel = MAX_ROUNDS + 1 - current_round`; the
zero case is unreachable because the loop only continues while
`current_round < MAX_ROUNDS`).  Returns the final response together with the
engine requests issued and the tool rounds executed inside the loop. -/
def seqLoop (engine : Engine) (sys : String) (toolsP : Option (List ToolSchema))
    (tm : ToolManager) :
    Nat → Nat → List Message → Response → Nat →
      Response × List ApiParams × List (Response × List ToolResult)
  | 0, _, _, resp, _ => (resp, [], [])
  | fuel + 1, callIdx, messages, resp, round =>
    let messages1 := messages ++ [⟨"assistant", MessageContent.blocks resp.content⟩]
    let tr := execute_single_tool_round tm resp.content
    if tr.2 then
      -- tool failure: add results, make one final API call without tools, break
      let messages2 := messages1 ++ [⟨"user", MessageContent.results tr.1⟩]
      (engine callIdx, [⟨messages2, sys, none, none⟩], [(resp, tr.1)])
    else
      let messages2 :=
        if tr.1.isEmpty then messages1
        else messages1 ++ [⟨"user", MessageContent.results tr.1⟩]
      -- only include tools if we haven't reached max rounds
      let params : ApiParams :=
        if round < MAX_ROUNDS then ⟨messages2, sys, some (toolsP.getD []), some "auto"⟩
        else ⟨messages2, sys, none, none⟩
      let r := engine callIdx
      if !hasToolUse r.content || MAX_ROUNDS ≤ round then
        (r, [params], [(resp, tr.1)])
      else
        let next := seqLoop engine sys toolsP tm fuel (callIdx + 1) messages2 r (round + 1)
        (next.1, params :: next.2.1, (resp, tr.1) :: next.2.2)

/-- The static system prompt (`AIGenerator.SYSTEM_PROMPT`); its exact text is
opaque to every property proved here. -/
def SYSTEM_PROMPT : String :=
  " You are an AI assistant specialized in course materials and educational content with access to comprehensive search tools for course information.\n\nAvailable Tools:\n1. **Content Search Tool** - For finding specific information within course materials\n2. **Course Outline Tool** - For getting complete course structure, lesson lists, and course details\n\nTool Usage Guidelines:\n- **Course outline/structure questions**: Use the course outline tool to get complete course information including course title, instructor, course link, and full lesson list with numbers and titles\n- **Content/detail questions**: Use the content search tool for specific educational materials and lesson content\n- **Maximum 2 tool calls per query** - You may make additional tool calls after seeing results from the first call\n- Use tools sequentially when initial results need refinement or additional context\n- Synthesize tool results into accurate, fact-based responses\n- If tools yield no results, state this clearly without offering alternatives\n\nResponse Protocol:\n- **General knowledge questions**: Answer using existing knowledge without using tools\n- **Course structure questions**: Use outline tool first, then provide complete course details\n- **Course content questions**: Use content search tool first, then answer\n- **No meta-commentary**:\n - Provide direct answers only â\u0080\u0094 no reasoning process, tool explanations, or question-type analysis\n - Do not mention \"based on the search results\" or \"using the tool\"\n\nFor course outline queries, ensure you return:\n- Course title\n- Course link (if available)\n- Complete lesson list with lesson numbers and titles\n\nAll responses must be:\n1. **Brief, Concise and focused** - Get to the point quickly\n2. **Educational** - Maintain instructional value\n3. **Clear** - Use accessible language\n4. **Example-supported** - Include relevant examples when they aid understanding\nProvide only the direct answer to what was asked.\n"

/-- System content construction of `generate_response`: the history section is
added only when `conversation_history` is truthy (non-`None` and non-empty). -/
def buildSystemContent (conversation_history : Option String) : String :=
  match conversation_history with
  | some h =>
    if h = "" then SYSTEM_PROMPT
    else SYSTEM_PROMPT ++ "\n\nPrevious conversation:\n" ++ h
  | none => SYSTEM_PROMPT

/-- `if tools:` — the tools value actually attached to the request, `none`
when the argument is `None` or an empty (falsy) list. -/
def attachedTools (tools : Option (List ToolSchema)) : Option (List ToolSchema) :=
  match tools with
  | some ts => if ts.isEmpty then none else some ts
  | none => none

/-- The initial `api_params` of `generate_response`. -/
def initParams (query : String) (conversation_history : Option String)
    (tools : Option (List ToolSchema)) : ApiParams :=
  ⟨[⟨"user", MessageContent.text query⟩], buildSystemContent conversation_history,
    attachedTools tools,
    if (attachedTools tools).isSome then some "auto" else none⟩

/-- `AIGenerator.generate_response`: one initial engine call; if its
`stop_reason` is `"tool_use"` and a tool manager was supplied, hand off to the
sequential tool-execution loop; otherwise return the first content block's
text. -/
def generate_response (engine : Engine) (query : String)
    (conversation_history : Option String) (tools : Option (List ToolSchema))
    (tool_manager : Option ToolManager) : GenResult :=
  let api0 := initParams query conversation_history tools
  let response := engine 0
  match tool_manager with
  | some tm =>
    if response.stop_reason = "tool_use" then
      let out := seqLoop engine (buildSystemContent conversation_history)
        (attachedTools tools) tm MAX_ROUNDS 1
        [⟨"user", MessageContent.text query⟩] response 1
      ⟨headText out.1, api0 :: out.2.1, out.2.2⟩
    else ⟨headText response, [api0], []⟩
  | none => ⟨headText response, [api0], []⟩

/-! Filtered vector retrieval layer.

`backend/vector_store.py` itself is not present under `src/` — only its test
suite (`src/backend/tests/test_vector_store.py`) is.  The definitions below are
therefore modelled from the spec (§4.3 "Filtered Vector Index") and from the
behaviour asserted by those tests.  The external vector-database client is
again an oracle: `CatalogFn` models the best-match catalog lookup
(`course_catalog.query(query_texts=[name], n_results=1)` followed by the
extraction of the closest match's title), `ContentFn` models
`course_content.query`; `Except.error` models a raised transport exception. -/

/-- Chunk metadata `{course_title, lesson_number}`. -/
structure SearchMeta where
  course_title : String
  lesson_number : Option Int
deriving DecidableEq, Repr

/-- Modelled from the spec: the `SearchResults` value of
`backend/vector_store.py` (not under `src/`) — ordered parallel lists of
document text, metadata and distance plus an optional error; distances are
abstracted to integers since no claim depends on them. -/
structure SearchResults where
  documents : List String
  metadata : List SearchMeta
  distances : List Int
  error : Option String
deriving DecidableEq, Repr

/-- `SearchResults.is_empty`. -/
def SearchResults.is_empty (r : SearchResults) : Bool := r.documents.isEmpty

/-- `SearchResults.empty(error_msg)`: an empty result set carrying an error. -/
def SearchResults.emptyWithError (msg : String) : SearchResults := ⟨[], [], [], some msg⟩

/-- Oracle for the catalog collection's best-match lookup: `Except.ok none`
models an empty catalog / no documents returned, `Except.ok (some title)` the
closest match's canonical title, `Except.error e` a raised lookup exception. -/
abbrev CatalogFn := String → Except String (Option String)

/-- Equality filters handed to the content collection's `where` argument:
`{course_title: t}`, `{lesson_number: n}`, or `{"$and": [...]}`. -/
inductive ChromaWhere where
  | courseTitleEq (t : String)
  | lessonNumberEq (n : Int)
  | andW (cs : List ChromaWhere)
deriving Repr

/-- Oracle for the content collection's nearest-neighbour query under an
optional filter; rows are (document, metadata, distance). -/
abbrev ContentFn := String → Option ChromaWhere → Except String (List (String × SearchMeta × Int))

/-- Modelled from the spec: `VectorStore._resolve_course_name` of
`backend/vector_store.py` (not under `src/`) — nearest-neighbour lookup of the
free-text course name against the catalog; both an empty lookup result and a
raised exception (caught and logged) yield `None`. -/
def resolve_course_name (catalog : CatalogFn) (course_name : String) : Option String :=
  match catalog course_name with
  | Except.ok r => r
  | Except.error _ => none

/-- Modelled from the spec: `VectorStore._build_filter` of
`backend/vector_store.py` (not under `src/`) — no filter when neither part is
given, a single equality clause when exactly one is given, an `$and`
conjunction of both equality clauses when both are given. -/
def build_filter (course_title : Option String) (lesson_number : Option Int) :
    Option ChromaWhere :=
  match course_title, lesson_number with
  | none, none => none
  | some t, none => some (ChromaWhere.courseTitleEq t)
  | none, some n => some (ChromaWhere.lessonNumberEq n)
  | some t, some n =>
    some (ChromaWhere.andW [ChromaWhere.courseTitleEq t, ChromaWhere.lessonNumberEq n])

/-- A search outcome: the result set plus whether the content collection was
actually queried (the observable `course_content.query` call). -/
structure SearchOutcome where
  results : SearchResults
  contentQueried : Bool
deriving DecidableEq, Repr

/-- The content-collection query step of `search`, wrapping any transport
failure as a `"Search error: <message>"` result. -/
def searchContent (content : ContentFn) (query : String) (w : Option ChromaWhere) :
    SearchOutcome :=
  match content query w with
  | Except.ok rows =>
    ⟨⟨rows.map (fun r => r.1), rows.map (fun r => r.2.1), rows.map (fun r => r.2.2), none⟩, true⟩
  | Except.error e => ⟨SearchResults.emptyWithError ("Search error: " ++ e), true⟩

/-- Modelled from the spec: `VectorStore.search` of `backend/vector_store.py`
(not under `src/`) — resolve the course name first when one is given; on
resolution failure return the error result
`"No course found matching '<course_name>'"` without querying the content
collection; otherwise build the equality filter and query the content
collection. -/
def search (catalog : CatalogFn) (content : ContentFn) (query : String)
    (course_name : Option String) (lesson_number : Option Int) : SearchOutcome :=
  match course_name with
  | some cn =>
    match resolve_course_name catalog cn with
    | none =>
      ⟨SearchResults.emptyWithError ("No course found matching '" ++ cn ++ "'"), false⟩
    | some title => searchContent content query (build_filter (some title) lesson_number)
  | none => searchContent content query (build_filter none lesson_number)

/-! Concrete fixtures used by witnesses and counterexamples. -/

/-- Engine that requests one tool call, then answers in text. -/
def engClaimsTool : Engine := fun n =>
  match n with
  | 0 => ⟨"tool_use", [ContentBlock.toolUse "toolA" [] "id1"]⟩
  | _ => ⟨"end_turn", [ContentBlock.text "done"]⟩

/-- Engine that keeps requesting tool use on every round. -/
def engAlwaysTool : Engine := fun n =>
  match n with
  | 0 => ⟨"tool_use", [ContentBlock.toolUse "search_course_content" [("query", "test1")] "tool_1"]⟩
  | 1 => ⟨"tool_use", [ContentBlock.toolUse "search_course_content" [("query", "test2")] "tool_2"]⟩
  | _ => ⟨"end_turn", [ContentBlock.text "Final answer after max rounds"]⟩

/-- Engine whose second response carries a tool-use block under a
non-`tool_use` stop reason. -/
def engStopMismatch : Engine := fun n =>
  match n with
  | 0 => ⟨"tool_use", [ContentBlock.toolUse "toolA" [] "id1"]⟩
  | 1 => ⟨"end_turn", [ContentBlock.toolUse "toolB" [] "id2"]⟩
  | _ => ⟨"end_turn", [ContentBlock.text "done"]⟩

/-- Engine that answers directly in text. -/
def engPlain : Engine := fun _ => ⟨"end_turn", [ContentBlock.text "hi"]⟩

/-- Tool manager that always succeeds with an innocuous result. -/
def tmOk : ToolManager := fun nm _ => Except.ok ("result for " ++ nm)

/-- Tool manager that always raises. -/
def tmRaise : ToolManager := fun _ _ => Except.error "Database connection failed"

/-- Tool manager whose successful result legitimately contains the word
"failed". -/
def tmFailedWord : ToolManager := fun _ _ => Except.ok "The 1970 mission failed to land"

/-- A catalog oracle with no entries. -/
def catalogEmpty : CatalogFn := fun _ => Except.ok none

/-- A content oracle that must never be reached. -/
def contentReject : ContentFn := fun _ _ => Except.error "content collection queried"

/-! Properties of a single tool round. -/

theorem exec_round_eq (tm : ToolManager) (content : List ContentBlock) :
    execute_single_tool_round tm content =
      ((toolUseBlocks content).map (fun b => (mkToolResult tm b).1),
       (toolUseBlocks content).any (fun b => (mkToolResult tm b).2)) := by
  induction content with
  | nil => rfl
  | cons b rest ih =>
    cases b with
    | text t =>
      simpa [execute_single_tool_round, toolUseBlocks] using ih
    | toolUse n i idArg =>
      simp [execute_single_tool_round, toolUseBlocks, ih]

theorem exec_round_fst (tm : ToolManager) (content : List ContentBlock) :
    (execute_single_tool_round tm content).1 =
      (toolUseBlocks content).map (fun b => (mkToolResult tm b).1) := by
  rw [exec_round_eq]

theorem exec_round_snd (tm : ToolManager) (content : List ContentBlock) :
    (execute_single_tool_round tm content).2 =
      (toolUseBlocks content).any (fun b => (mkToolResult tm b).2) := by
  rw [exec_round_eq]

theorem mkToolResult_id (tm : ToolManager) (b : ToolUseCall) :
    ((mkToolResult tm b).1).tool_use_id = b.id := by
  unfold mkToolResult
  cases tm b.name b.input <;> rfl

theorem exec_ids (tm : ToolManager) (content : List ContentBlock) :
    ((execute_single_tool_round tm content).1).map ToolResult.tool_use_id =
      (toolUseBlocks content).map ToolUseCall.id := by
  rw [exec_round_fst, List.map_map]
  exact List.map_congr_left fun b _ => mkToolResult_id tm b

theorem exec_error_snd (tm : ToolManager) (content : List ContentBlock)
    (b : ToolUseCall) (e : String)
    (hb : b ∈ toolUseBlocks content) (he : tm b.name b.input = Except.error e) :
    (execute_single_tool_round tm content).2 = true := by
  rw [exec_round_snd]
  exact List.any_eq_true.2 ⟨b, hb, by simp [mkToolResult, he]⟩

theorem exec_marker_snd (tm : ToolManager) (content : List ContentBlock)
    (b : ToolUseCall) (r : String)
    (hb : b ∈ toolUseBlocks content) (hr : tm b.name b.input = Except.ok r)
    (hcf : containsFailed r = true) :
    (execute_single_tool_round tm content).2 = true := by
  rw [exec_round_snd]
  exact List.any_eq_true.2 ⟨b, hb, by simp [mkToolResult, hr, hcf]⟩

theorem exec_snd_isEmpty_false (tm : ToolManager) (content : List ContentBlock)
    (h : (execute_single_tool_round tm content).2 = true) :
    (execute_single_tool_round tm content).1.isEmpty = false := by
  rw [exec_round_snd] at h
  rw [exec_round_fst]
  obtain ⟨b, hb, -⟩ := List.any_eq_true.1 h
  cases hl : toolUseBlocks content with
  | nil => rw [hl] at hb; cases hb
  | cons x xs => rfl

theorem hasToolUse_eq_isEmpty (content : List ContentBlock) :
    hasToolUse content = !(toolUseBlocks content).isEmpty := by
  induction content with
  | nil => rfl
  | cons b rest ih =>
    cases b with
    | text t => simpa [hasToolUse, toolUseBlocks] using ih
    | toolUse n i idArg => simp [hasToolUse, toolUseBlocks]

theorem exec_nil_of_no_toolUse (tm : ToolManager) (content : List ContentBlock)
    (h : hasToolUse content = false) :
    (execute_single_tool_round tm content).1 = [] := by
  rw [exec_round_fst]
  rw [hasToolUse_eq_isEmpty] at h
  cases hl : toolUseBlocks content with
  | nil => rfl
  | cons x xs => rw [hl] at h; simp at h

/-! Case characterization of the orchestration loop. -/

theorem gen_no_handler (engine : Engine) (q : String) (hist : Option String)
    (tools : Option (List ToolSchema)) (tmo : Option ToolManager)
    (h : tmo = none ∨ (engine 0).stop_reason ≠ "tool_use") :
    generate_response engine q hist tools tmo =
      ⟨headText (engine 0), [initParams q hist tools], []⟩ := by
  rcases h with h | h
  · subst h; rfl
  · unfold generate_response
    cases tmo with
    | none => rfl
    | some tm => simp only [if_neg h]

theorem gen_fail_round1 (engine : Engine) (q : String) (hist : Option String)
    (tools : Option (List ToolSchema)) (tm : ToolManager)
    (hs : (engine 0).stop_reason = "tool_use")
    (hf : (execute_single_tool_round tm (engine 0).content).2 = true) :
    generate_response engine q hist tools (some tm) =
      ⟨headText (engine 1),
       [initParams q hist tools,
        ⟨[⟨"user", MessageContent.text q⟩,
          ⟨"assistant", MessageContent.blocks (engine 0).content⟩,
          ⟨"user", MessageContent.results (execute_single_tool_round tm (engine 0).content).1⟩],
         buildSystemContent hist, none, none⟩],
       [((engine 0), (execute_single_tool_round tm (engine 0).content).1)]⟩ := by
  unfold generate_response
  simp only [hs, if_true, reduceIte, seqLoop, MAX_ROUNDS, hf]
  rfl

theorem gen_clean_stop (engine : Engine) (q : String) (hist : Option String)
    (tools : Option (List ToolSchema)) (tm : ToolManager)
    (hs : (engine 0).stop_reason = "tool_use")
    (hf : (execute_single_tool_round tm (engine 0).content).2 = false)
    (hnt : hasToolUse (engine 1).content = false) :
    generate_response engine q hist tools (some tm) =
      ⟨headText (engine 1),
       [initParams q hist tools,
        ⟨[⟨"user", MessageContent.text q⟩,
          ⟨"assistant", MessageContent.blocks (engine 0).content⟩] ++
          (if (execute_single_tool_round tm (engine 0).content).1.isEmpty then []
           else [⟨"user", MessageContent.results (execute_single_tool_round tm (engine 0).content).1⟩]),
         buildSystemContent hist, some ((attachedTools tools).getD []), some "auto"⟩],
       [((engine 0), (execute_single_tool_round tm (engine 0).content).1)]⟩ := by
  unfold generate_response
  simp only [hs, if_true, reduceIte, seqLoop, MAX_ROUNDS, hf, hnt]
  cases hc : (execute_single_tool_round tm (engine 0).content).1.isEmpty <;>
    simp [hc, MAX_ROUNDS]

theorem gen_fail_round2 (engine : Engine) (q : String) (hist : Option String)
    (tools : Option (List ToolSchema)) (tm : ToolManager)
    (hs : (engine 0).stop_reason = "tool_use")
    (hf : (execute_single_tool_round tm (engine 0).content).2 = false)
    (ht : hasToolUse (engine 1).content = true)
    (hf2 : (execute_single_tool_round tm (engine 1).content).2 = true) :
    generate_response engine q hist tools (some tm) =
      ⟨headText (engine 2),
       [initParams q hist tools,
        ⟨[⟨"user", MessageContent.text q⟩,
          ⟨"assistant", MessageContent.blocks (engine 0).content⟩] ++
          (if (execute_single_tool_round tm (engine 0).content).1.isEmpty then []
           else [⟨"user", MessageContent.results (execute_single_tool_round tm (engine 0).content).1⟩]),
         buildSystemContent hist, some ((attachedTools tools).getD []), some "auto"⟩,
        ⟨([⟨"user", MessageContent.text q⟩,
           ⟨"assistant", MessageContent.blocks (engine 0).content⟩] ++
          (if (execute_single_tool_round tm (engine 0).content).1.isEmpty then []
           else [⟨"user", MessageContent.results (execute_single_tool_round tm (engine 0).content).1⟩])) ++
          [⟨"assistant", MessageContent.blocks (engine 1).content⟩,
           ⟨"user", MessageContent.results (execute_single_tool_round tm (engine 1).content).1⟩],
         buildSystemContent hist, none, none⟩],
       [((engine 0), (execute_single_tool_round tm (engine 0).content).1),
        ((engine 1), (execute_single_tool_round tm (engine 1).content).1)]⟩ := by
  unfold generate_response
  simp only [hs, if_true, reduceIte, seqLoop, MAX_ROUNDS, hf, ht, hf2]
  cases hc : (execute_single_tool_round tm (engine 0).content).1.isEmpty <;>
    simp [hc, MAX_ROUNDS]

theorem gen_max_rounds (engine : Engine) (q : String) (hist : Option String)
    (tools : Option (List ToolSchema)) (tm : ToolManager)
    (hs : (engine 0).stop_reason = "tool_use")
    (hf : (execute_single_tool_round tm (engine 0).content).2 = false)
    (ht : hasToolUse (engine 1).content = true)
    (hf2 : (execute_single_tool_round tm (engine 1).content).2 = false) :
    generate_response engine q hist tools (some tm) =
      ⟨headText (engine 2),
       [initParams q hist tools,
        ⟨[⟨"user", MessageContent.text q⟩,
          ⟨"assistant", MessageContent.blocks (engine 0).content⟩] ++
          (if (execute_single_tool_round tm (engine 0).content).1.isEmpty then []
           else [⟨"user", MessageContent.results (execute_single_tool_round tm (engine 0).content).1⟩]),
         buildSystemContent hist, some ((attachedTools tools).getD []), some "auto"⟩,
        ⟨(([⟨"user", MessageContent.text q⟩,
           ⟨"assistant", MessageContent.blocks (engine 0).content⟩] ++
          (if (execute_single_tool_round tm (engine 0).content).1.isEmpty then []
           else [⟨"user", MessageContent.results (execute_single_tool_round tm (engine 0).content).1⟩])) ++
          [⟨"assistant", MessageContent.blocks (engine 1).content⟩]) ++
          (if (execute_single_tool_round tm (engine 1).content).1.isEmpty then []
           else [⟨"user", MessageContent.results (execute_single_tool_round tm (engine 1).content).1⟩]),
         buildSystemContent hist, none, none⟩],
       [((engine 0), (execute_single_tool_round tm (engine 0).content).1),
        ((engine 1), (execute_single_tool_round tm (engine 1).content).1)]⟩ := by
  unfold generate_response
  simp only [hs, if_true, reduceIte, seqLoop, MAX_ROUNDS, hf, ht, hf2]
  cases hc : (execute_single_tool_round tm (engine 0).content).1.isEmpty <;>
    cases hc2 : (execute_single_tool_round tm (engine 1).content).1.isEmpty <;>
      simp [hc, hc2, MAX_ROUNDS]

/-- C1: for every call to `generate_response`, even when the engine keeps
requesting tool use, at most 2 tool-execution rounds occur, at most 3 engine
calls are made, and every engine call past the second (in particular the third,
if it occurs) is issued without tool schemas and without a tool_choice
policy. -/
theorem C1_round_limit (engine : Engine) (q : String) (hist : Option String)
    (tools : Option (List ToolSchema)) (tmo : Option ToolManager) :
    (generate_response engine q hist tools tmo).rounds.length ≤ 2 ∧
    (generate_response engine q hist tools tmo).calls.length ≤ 3 ∧
    ((generate_response engine q hist tools tmo).calls.drop 2).all
      (fun p => decide (p.tools = none) && decide (p.tool_choice = none)) = true := by
  cases tmo with
  | none =>
    rw [gen_no_handler engine q hist tools none (Or.inl rfl)]
    simp
  | some tm =>
    by_cases hs : (engine 0).stop_reason = "tool_use"
    · cases hf : (execute_single_tool_round tm (engine 0).content).2 with
      | true =>
        rw [gen_fail_round1 engine q hist tools tm hs hf]
        simp
      | false =>
        cases ht : hasToolUse (engine 1).content with
        | false =>
          rw [gen_clean_stop engine q hist tools tm hs hf ht]
          simp
        | true =>
          cases hf2 : (execute_single_tool_round tm (engine 1).content).2 with
          | true =>
            rw [gen_fail_round2 engine q hist tools tm hs hf ht hf2]
            simp
          | false =>
            rw [gen_max_rounds engine q hist tools tm hs hf ht hf2]
            simp
    · rw [gen_no_handler engine q hist tools (some tm) (Or.inr hs)]
      simp

/-- C2: if the first engine response requests tool use and at least one tool
execution in round 1 raises, exactly 2 engine calls occur in total, the second
(forced-final) call carries no tool schemas and no tool_choice, its message
list is exactly the query turn, the assistant tool-use turn and the single
user turn holding the round's tool results, and those results contain the
error text for every raising call. -/
theorem C2_failure_two_calls (engine : Engine) (q : String) (hist : Option String)
    (tools : Option (List ToolSchema)) (tm : ToolManager)
    (hs : (engine 0).stop_reason = "tool_use")
    (hb : ∃ b ∈ toolUseBlocks (engine 0).content, ∃ e, tm b.name b.input = Except.error e) :
    (generate_response engine q hist tools (some tm)).calls.length = 2 ∧
    (generate_response engine q hist tools (some tm)).calls.get? 1 = some
      ⟨[⟨"user", MessageContent.text q⟩,
        ⟨"assistant", MessageContent.blocks (engine 0).content⟩,
        ⟨"user", MessageContent.results (execute_single_tool_round tm (engine 0).content).1⟩],
       buildSystemContent hist, none, none⟩ ∧
    (∀ b e, b ∈ toolUseBlocks (engine 0).content → tm b.name b.input = Except.error e →
      (⟨b.id, "Tool execution failed: " ++ e⟩ : ToolResult) ∈
        (execute_single_tool_round tm (engine 0).content).1) := by
  obtain ⟨b, hbmem, e, he⟩ := hb
  have hf : (execute_single_tool_round tm (engine 0).content).2 = true :=
    exec_error_snd tm _ b e hbmem he
  rw [gen_fail_round1 engine q hist tools tm hs hf]
  refine ⟨rfl, rfl, ?_⟩
  intro b' e' hb' he'
  rw [exec_round_fst]
  exact List.mem_map.2 ⟨b', hb', by simp [mkToolResult, he']⟩

theorem C2_failure_two_calls_witness :
    (generate_response engClaimsTool "Search for content" none
      (some [⟨"search_course_content"⟩]) (some tmRaise)).calls.length = 2 ∧
    (⟨"id1", "Tool execution failed: Database connection failed"⟩ : ToolResult) ∈
      (execute_single_tool_round tmRaise (engClaimsTool 0).content).1 := by
  have h := C2_failure_two_calls engClaimsTool "Search for content" none
    (some [⟨"search_course_content"⟩]) tmRaise rfl
    ⟨⟨"toolA", [], "id1"⟩, by decide, "Database connection failed", rfl⟩
  exact ⟨h.1, h.2.2 ⟨"toolA", [], "id1"⟩ "Database connection failed" (by decide) rfl⟩

/-- C5: a tool call whose execution raises is caught (modelled by the total
`Except`-valued embedding — no exception escapes `generate_response`), its
tool result's content is exactly `"Tool execution failed: "` followed by the
exception message, and the round is marked as failed. -/
theorem C5_exception_caught (tm : ToolManager) (content : List ContentBlock)
    (i : Nat) (b : ToolUseCall) (e : String)
    (hb : (toolUseBlocks content).get? i = some b)
    (he : tm b.name b.input = Except.error e) :
    (execute_single_tool_round tm content).1.get? i =
      some ⟨b.id, "Tool execution failed: " ++ e⟩ ∧
    (execute_single_tool_round tm content).2 = true := by
  constructor
  · rw [exec_round_fst, List.get?_map, hb]
    simp [mkToolResult, he]
  · exact exec_error_snd tm content b e (List.get?_mem hb) he

theorem C5_exception_caught_witness :
    (execute_single_tool_round tmRaise [ContentBlock.toolUse "toolA" [] "id1"]).1.get? 0 =
      some ⟨"id1", "Tool execution failed: Database connection failed"⟩ ∧
    (execute_single_tool_round tmRaise [ContentBlock.toolUse "toolA" [] "id1"]).2 = true :=
  C5_exception_caught tmRaise [ContentBlock.toolUse "toolA" [] "id1"] 0
    ⟨"toolA", [], "id1"⟩ "Database connection failed" rfl rfl

/-- C9 (spec-modelled): the filter builder returns no filter when neither part
is given, a single equality clause when exactly one is given, and the `$and`
conjunction of exactly the two equality clauses when both are given. -/
theorem C9_build_filter (c : String) (n : Int) :
    build_filter none none = none ∧
    build_filter (some c) none = some (ChromaWhere.courseTitleEq c) ∧
    build_filter none (some n) = some (ChromaWhere.lessonNumberEq n) ∧
    build_filter (some c) (some n) =
      some (ChromaWhere.andW [ChromaWhere.courseTitleEq c, ChromaWhere.lessonNumberEq n]) :=
  ⟨rfl, rfl, rfl, rfl⟩

/-- C8 (spec-modelled): when the course name fails to resolve against the
catalog — no catalog match or a raised lookup error — `search` returns the
error result `"No course found matching '<course_name>'"` with an empty result
set, and the content collection is never queried. -/
theorem C8_course_not_found (catalog : CatalogFn) (content : ContentFn)
    (q : String) (cn : String) (ln : Option Int)
    (h : catalog cn = Except.ok none ∨ ∃ e, catalog cn = Except.error e) :
    (search catalog content q (some cn) ln).results.error =
      some ("No course found matching '" ++ cn ++ "'") ∧
    (search catalog content q (some cn) ln).results.is_empty = true ∧
    (search catalog content q (some cn) ln).contentQueried = false := by
  have hres : resolve_course_name catalog cn = none := by
    rcases h with h | ⟨e, h⟩ <;> simp [resolve_course_name, h]
  simp [search, hres, SearchResults.emptyWithError, SearchResults.is_empty]

theorem C8_course_not_found_witness :
    (search catalogEmpty contentReject "x" (some "NoSuchCourse") none).results.error =
      some "No course found matching 'NoSuchCourse'" ∧
    (search catalogEmpty contentReject "x" (some "NoSuchCourse") none).results.is_empty = true ∧
    (search catalogEmpty contentReject "x" (some "NoSuchCourse") none).contentQueried = false :=
  C8_course_not_found catalogEmpty contentReject "x" "NoSuchCourse" none (Or.inl rfl)

/-- C10: when the first engine response claims tool use but no tool manager
was supplied, no tool round is executed, no further engine call is made, and
the function returns the `.text` attribute of the response's first content
block — which is only defined (`some _`) when that block is a text block; for
a tool-use-only response the read fails (`none`, the modelled
`AttributeError`). -/
theorem C10_no_dispatcher (engine : Engine) (q : String) (hist : Option String)
    (tools : Option (List ToolSchema))
    (h : (engine 0).stop_reason = "tool_use") :
    (generate_response engine q hist tools none).rounds = [] ∧
    (generate_response engine q hist tools none).calls.length = 1 ∧
    (generate_response engine q hist tools none).result = headText (engine 0) ∧
    (((engine 0).content.head? = none ∨
      ∃ n i idArg, (engine 0).content.head? = some (ContentBlock.toolUse n i idArg)) →
      (generate_response engine q hist tools none).result = none) := by
  have hg := gen_no_handler engine q hist tools none (Or.inl rfl)
  rw [hg]
  refine ⟨rfl, rfl, rfl, ?_⟩
  rintro (hh | ⟨n, i, idArg, hh⟩) <;> simp [headText, hh, ContentBlock.textOf]

theorem C10_no_dispatcher_witness :
    (generate_response engClaimsTool "q" none none none).rounds = [] ∧
    (generate_response engClaimsTool "q" none none none).calls.length = 1 ∧
    (generate_response engClaimsTool "q" none none none).result = none := by
  have h := C10_no_dispatcher engClaimsTool "q" none none rfl
  exact ⟨h.1, h.2.1, h.2.2.2 (Or.inr ⟨"toolA", [], "id1", rfl⟩)⟩

theorem calls_head (engine : Engine) (q : String) (hist : Option String)
    (tools : Option (List ToolSchema)) (tmo : Option ToolManager) :
    (generate_response engine q hist tools tmo).calls.get? 0 =
      some (initParams q hist tools) := by
  unfold generate_response
  cases tmo with
  | none => rfl
  | some tm =>
    by_cases hs : (engine 0).stop_reason = "tool_use"
    · simp only [if_pos hs]
      rfl
    · simp only [if_neg hs]
      rfl

/-- C7 counterexample: with no tools supplied but a dispatcher present, an
engine response claiming `tool_use` drives the orchestrator into the tool
loop, so two engine calls occur — the claim's "exactly one engine call" is
false as stated. -/
theorem C7_counterexample :
    (generate_response engClaimsTool "q" none none (some tmOk)).calls.length = 2 ∧
    ¬ (generate_response engClaimsTool "q" none none (some tmOk)).calls.length = 1 := by
  constructor
  · rfl
  · intro h
    simp only [show (generate_response engClaimsTool "q" none none (some tmOk)).calls.length = 2
      from rfl] at h
    omega

/-- C7 (amended): for every call to `generate_response` with no tools
supplied — whatever the dispatcher and the engine's responses — the initial
engine request carries no tool schemas and no tool_choice policy; and provided
no dispatcher is supplied or the first response's stop_reason is not
`tool_use`, exactly one engine call is made and the text of that response's
first content block is returned verbatim. -/
theorem C7_no_tools (engine : Engine) (q : String) (hist : Option String)
    (tmo : Option ToolManager) :
    ((generate_response engine q hist none tmo).calls.get? 0).map ApiParams.tools =
      some none ∧
    ((generate_response engine q hist none tmo).calls.get? 0).map ApiParams.tool_choice =
      some none ∧
    ((tmo = none ∨ (engine 0).stop_reason ≠ "tool_use") →
      generate_response engine q hist none tmo =
        ⟨headText (engine 0),
         [⟨[⟨"user", MessageContent.text q⟩], buildSystemContent hist, none, none⟩], []⟩ ∧
      (∀ t, (engine 0).content.head? = some (ContentBlock.text t) →
        (generate_response engine q hist none tmo).result = some t)) := by
  refine ⟨?_, ?_, ?_⟩
  · rw [calls_head engine q hist none tmo]
    rfl
  · rw [calls_head engine q hist none tmo]
    rfl
  · intro h
    have hg := gen_no_handler engine q hist none tmo h
    constructor
    · rw [hg]
      rfl
    · intro t ht
      rw [hg]
      simp [headText, ht, ContentBlock.textOf]

theorem C7_no_tools_witness :
    ((generate_response engClaimsTool "q" none none (some tmOk)).calls.get? 0).map
      ApiParams.tools = some none ∧
    ((generate_response engClaimsTool "q" none none (some tmOk)).calls.get? 0).map
      ApiParams.tool_choice = some none ∧
    generate_response engPlain "q" none none none =
      ⟨some "hi",
       [⟨[⟨"user", MessageContent.text "q"⟩], SYSTEM_PROMPT, none, none⟩], []⟩ ∧
    (generate_response engPlain "q" none none none).result = some "hi" := by
  have hu := C7_no_tools engClaimsTool "q" none (some tmOk)
  have hp := C7_no_tools engPlain "q" none none
  have hg := hp.2.2 (Or.inl rfl)
  exact ⟨hu.1, hu.2.1, hg.1, hg.2 "hi" rfl⟩

theorem rounds_shape (engine : Engine) (q : String) (hist : Option String)
    (tools : Option (List ToolSchema)) (tm : ToolManager) :
    ∀ i resp results,
      (generate_response engine q hist tools (some tm)).rounds.get? i = some (resp, results) →
      resp = engine i ∧
      results = (execute_single_tool_round tm (engine i).content).1 ∧ i < 2 := by
  intro i resp results h
  by_cases hs : (engine 0).stop_reason = "tool_use"
  · cases hf : (execute_single_tool_round tm (engine 0).content).2 with
    | true =>
      rw [gen_fail_round1 engine q hist tools tm hs hf] at h
      cases i with
      | zero =>
        simp only [List.get?_cons_zero, Option.some.injEq, Prod.mk.injEq] at h
        exact ⟨h.1.symm, h.2.symm, by omega⟩
      | succ j => simp at h
    | false =>
      cases ht : hasToolUse (engine 1).content with
      | false =>
        rw [gen_clean_stop engine q hist tools tm hs hf ht] at h
        cases i with
        | zero =>
          simp only [List.get?_cons_zero, Option.some.injEq, Prod.mk.injEq] at h
          exact ⟨h.1.symm, h.2.symm, by omega⟩
        | succ j => simp at h
      | true =>
        cases hf2 : (execute_single_tool_round tm (engine 1).content).2 with
        | true =>
          rw [gen_fail_round2 engine q hist tools tm hs hf ht hf2] at h
          cases i with
          | zero =>
            simp only [List.get?_cons_zero, Option.some.injEq, Prod.mk.injEq] at h
            exact ⟨h.1.symm, h.2.symm, by omega⟩
          | succ j =>
            cases j with
            | zero =>
              simp only [List.get?_cons_succ, List.get?_cons_zero, Option.some.injEq,
                Prod.mk.injEq] at h
              exact ⟨h.1.symm, h.2.symm, by omega⟩
            | succ k => simp at h
        | false =>
          rw [gen_max_rounds engine q hist tools tm hs hf ht hf2] at h
          cases i with
          | zero =>
            simp only [List.get?_cons_zero, Option.some.injEq, Prod.mk.injEq] at h
            exact ⟨h.1.symm, h.2.symm, by omega⟩
          | succ j =>
            cases j with
            | zero =>
              simp only [List.get?_cons_succ, List.get?_cons_zero, Option.some.injEq,
                Prod.mk.injEq] at h
              exact ⟨h.1.symm, h.2.symm, by omega⟩
            | succ k => simp at h
  · rw [gen_no_handler engine q hist tools (some tm) (Or.inr hs)] at h
    simp at h

theorem fail_round_terminates (engine : Engine) (q : String) (hist : Option String)
    (tools : Option (List ToolSchema)) (tm : ToolManager) :
    ∀ i resp results,
      (generate_response engine q hist tools (some tm)).rounds.get? i = some (resp, results) →
      (execute_single_tool_round tm resp.content).2 = true →
      (generate_response engine q hist tools (some tm)).rounds.length = i + 1 ∧
      (generate_response engine q hist tools (some tm)).calls.length = i + 2 ∧
      ((generate_response engine q hist tools (some tm)).calls.get? (i + 1)).map
        ApiParams.tools = some none ∧
      ((generate_response engine q hist tools (some tm)).calls.get? (i + 1)).map
        ApiParams.tool_choice = some none := by
  intro i resp results h hsnd
  obtain ⟨h1, -, -⟩ := rounds_shape engine q hist tools tm i resp results h
  subst h1
  by_cases hs : (engine 0).stop_reason = "tool_use"
  · cases hf : (execute_single_tool_round tm (engine 0).content).2 with
    | true =>
      rw [gen_fail_round1 engine q hist tools tm hs hf] at h ⊢
      cases i with
      | zero => exact ⟨rfl, rfl, rfl, rfl⟩
      | succ j => simp at h
    | false =>
      cases ht : hasToolUse (engine 1).content with
      | false =>
        rw [gen_clean_stop engine q hist tools tm hs hf ht] at h ⊢
        cases i with
        | zero => rw [hf] at hsnd; exact Bool.noConfusion hsnd
        | succ j => simp at h
      | true =>
        cases hf2 : (execute_single_tool_round tm (engine 1).content).2 with
        | true =>
          rw [gen_fail_round2 engine q hist tools tm hs hf ht hf2] at h ⊢
          cases i with
          | zero => rw [hf] at hsnd; exact Bool.noConfusion hsnd
          | succ j =>
            cases j with
            | zero => exact ⟨rfl, rfl, rfl, rfl⟩
            | succ k => simp at h
        | false =>
          rw [gen_max_rounds engine q hist tools tm hs hf ht hf2] at h ⊢
          cases i with
          | zero => rw [hf] at hsnd; exact Bool.noConfusion hsnd
          | succ j =>
            cases j with
            | zero => rw [hf2] at hsnd; exact Bool.noConfusion hsnd
            | succ k => simp at h
  · rw [gen_no_handler engine q hist tools (some tm) (Or.inr hs)] at h
    simp at h

/-- C4 counterexample: the loop decides further tool execution by scanning
content blocks, not `stop_reason`; here the round-2 response has
`stop_reason = "end_turn"` yet its tool-use block is executed, refuting the
claim that responses with `stop_reason ≠ tool_use` cause zero tool
executions. -/
theorem C4_counterexample :
    (generate_response engStopMismatch "q" none (some [⟨"toolA"⟩]) (some tmOk)).rounds.get? 1 =
      some (⟨"end_turn", [ContentBlock.toolUse "toolB" [] "id2"]⟩,
            [⟨"id2", "result for toolB"⟩]) ∧
    (⟨"end_turn", [ContentBlock.toolUse "toolB" [] "id2"]⟩ : Response).stop_reason ≠
      "tool_use" :=
  ⟨rfl, by decide⟩

/-- C4 (amended): zero tool executions occur as a consequence of any engine
response that contains no tool-use content blocks; for the initial response —
the only one gated on `stop_reason` — a `stop_reason ≠ tool_use` additionally
guarantees zero tool rounds altogether.  (Later-round responses are gated on
their content blocks, not on `stop_reason`.) -/
theorem C4_content_gated (engine : Engine) (q : String) (hist : Option String)
    (tools : Option (List ToolSchema)) (tmo : Option ToolManager) :
    (∀ i resp results,
      (generate_response engine q hist tools tmo).rounds.get? i = some (resp, results) →
      (hasToolUse resp.content = false → results = []) ∧
      (i = 0 → resp.stop_reason = "tool_use")) ∧
    ((engine 0).stop_reason ≠ "tool_use" →
      (generate_response engine q hist tools tmo).rounds = []) := by
  cases tmo with
  | none =>
    rw [gen_no_handler engine q hist tools none (Or.inl rfl)]
    exact ⟨fun i resp results h => by simp at h, fun _ => rfl⟩
  | some tm =>
    by_cases hs : (engine 0).stop_reason = "tool_use"
    · refine ⟨fun i resp results h => ?_, fun hns => absurd hs hns⟩
      obtain ⟨h1, h2, -⟩ := rounds_shape engine q hist tools tm i resp results h
      subst h1; subst h2
      refine ⟨fun hnt => exec_nil_of_no_toolUse tm _ hnt, fun hi0 => ?_⟩
      subst hi0; exact hs
    · rw [gen_no_handler engine q hist tools (some tm) (Or.inr hs)]
      exact ⟨fun i resp results h => by simp at h, fun _ => rfl⟩

theorem C4_content_gated_witness :
    (engPlain 0).stop_reason ≠ "tool_use" ∧
    (generate_response engPlain "q" none none none).rounds = [] :=
  ⟨by decide, (C4_content_gated engPlain "q" none none none).2 (by decide)⟩

/-- C6: a tool call that successfully returns a string containing "failed"
(case-insensitively) makes `_execute_single_tool_round` flag the round as a
tool-execution failure, so the loop terminates after that round with exactly
one more engine call, issued without tool schemas and without a tool_choice
policy — even when the string is legitimate content. -/
theorem C6_failed_marker (engine : Engine) (q : String) (hist : Option String)
    (tools : Option (List ToolSchema)) (tm : ToolManager)
    (i : Nat) (resp : Response) (results : List ToolResult) (b : ToolUseCall) (r : String)
    (hrd : (generate_response engine q hist tools (some tm)).rounds.get? i =
      some (resp, results))
    (hb : b ∈ toolUseBlocks resp.content)
    (hr : tm b.name b.input = Except.ok r)
    (hcf : containsFailed r = true) :
    (generate_response engine q hist tools (some tm)).rounds.length = i + 1 ∧
    (generate_response engine q hist tools (some tm)).calls.length = i + 2 ∧
    ((generate_response engine q hist tools (some tm)).calls.get? (i + 1)).map
      ApiParams.tools = some none ∧
    ((generate_response engine q hist tools (some tm)).calls.get? (i + 1)).map
      ApiParams.tool_choice = some none := by
  have hsnd : (execute_single_tool_round tm resp.content).2 = true :=
    exec_marker_snd tm resp.content b r hb hr hcf
  exact fail_round_terminates engine q hist tools tm i resp results hrd hsnd

theorem C6_failed_marker_witness :
    (generate_response engClaimsTool "q" none (some [⟨"s"⟩]) (some tmFailedWord)).rounds.length =
      0 + 1 ∧
    (generate_response engClaimsTool "q" none (some [⟨"s"⟩]) (some tmFailedWord)).calls.length =
      0 + 2 ∧
    ((generate_response engClaimsTool "q" none (some [⟨"s"⟩]) (some tmFailedWord)).calls.get?
      (0 + 1)).map ApiParams.tools = some none ∧
    ((generate_response engClaimsTool "q" none (some [⟨"s"⟩]) (some tmFailedWord)).calls.get?
      (0 + 1)).map ApiParams.tool_choice = some none :=
  C6_failed_marker engClaimsTool "q" none (some [⟨"s"⟩]) tmFailedWord 0
    (engClaimsTool 0) [⟨"id1", "The 1970 mission failed to land"⟩]
    ⟨"toolA", [], "id1"⟩ "The 1970 mission failed to land"
    rfl (by decide) rfl (by decide)

/-- C3: in every executed round, the tool-result blocks correspond one-to-one
and in order to the response's tool-use blocks by correlation id
(`tool_use_id`), and they are appended to the transcript as a single user turn
immediately following the assistant turn that held the tool-use blocks — also
when some calls in the round fail. -/
theorem C3_transcript_invariant (engine : Engine) (q : String) (hist : Option String)
    (tools : Option (List ToolSchema)) (tm : ToolManager) :
    ∀ i resp results,
      (generate_response engine q hist tools (some tm)).rounds.get? i = some (resp, results) →
      results.map ToolResult.tool_use_id = (toolUseBlocks resp.content).map ToolUseCall.id ∧
      (∀ pPrev pNext,
        (generate_response engine q hist tools (some tm)).calls.get? i = some pPrev →
        (generate_response engine q hist tools (some tm)).calls.get? (i + 1) = some pNext →
        pNext.messages = pPrev.messages ++
          ([⟨"assistant", MessageContent.blocks resp.content⟩] ++
           (if results.isEmpty then []
            else [⟨"user", MessageContent.results results⟩]))) := by
  intro i resp results h
  by_cases hs : (engine 0).stop_reason = "tool_use"
  · cases hf : (execute_single_tool_round tm (engine 0).content).2 with
    | true =>
      have hne := exec_snd_isEmpty_false tm (engine 0).content hf
      rw [gen_fail_round1 engine q hist tools tm hs hf] at h ⊢
      cases i with
      | zero =>
        simp only [List.get?_cons_zero, Option.some.injEq, Prod.mk.injEq] at h
        obtain ⟨h1, h2⟩ := h
        subst h1; subst h2
        refine ⟨exec_ids tm _, ?_⟩
        intro pPrev pNext hp hn
        simp only [List.get?_cons_zero, List.get?_cons_succ, Option.some.injEq] at hp hn
        subst hp; subst hn
        simp [initParams, hne]
      | succ j => simp at h
    | false =>
      cases ht : hasToolUse (engine 1).content with
      | false =>
        rw [gen_clean_stop engine q hist tools tm hs hf ht] at h ⊢
        cases i with
        | zero =>
          simp only [List.get?_cons_zero, Option.some.injEq, Prod.mk.injEq] at h
          obtain ⟨h1, h2⟩ := h
          subst h1; subst h2
          refine ⟨exec_ids tm _, ?_⟩
          intro pPrev pNext hp hn
          simp only [List.get?_cons_zero, List.get?_cons_succ, Option.some.injEq] at hp hn
          subst hp; subst hn
          simp [initParams]
        | succ j => simp at h
      | true =>
        cases hf2 : (execute_single_tool_round tm (engine 1).content).2 with
        | true =>
          have hne2 := exec_snd_isEmpty_false tm (engine 1).content hf2
          rw [gen_fail_round2 engine q hist tools tm hs hf ht hf2] at h ⊢
          cases i with
          | zero =>
            simp only [List.get?_cons_zero, Option.some.injEq, Prod.mk.injEq] at h
            obtain ⟨h1, h2⟩ := h
            subst h1; subst h2
            refine ⟨exec_ids tm _, ?_⟩
            intro pPrev pNext hp hn
            simp only [List.get?_cons_zero, List.get?_cons_succ, Option.some.injEq] at hp hn
            subst hp; subst hn
            simp [initParams]
          | succ j =>
            cases j with
            | zero =>
              simp only [List.get?_cons_succ, List.get?_cons_zero, Option.some.injEq,
                Prod.mk.injEq] at h
              obtain ⟨h1, h2⟩ := h
              subst h1; subst h2
              refine ⟨exec_ids tm _, ?_⟩
              intro pPrev pNext hp hn
              simp only [List.get?_cons_zero, List.get?_cons_succ, Option.some.injEq] at hp hn
              subst hp; subst hn
              simp [hne2]
            | succ k => simp at h
        | false =>
          rw [gen_max_rounds engine q hist tools tm hs hf ht hf2] at h ⊢
          cases i with
          | zero =>
            simp only [List.get?_cons_zero, Option.some.injEq, Prod.mk.injEq] at h
            obtain ⟨h1, h2⟩ := h
            subst h1; subst h2
            refine ⟨exec_ids tm _, ?_⟩
            intro pPrev pNext hp hn
            simp only [List.get?_cons_zero, List.get?_cons_succ, Option.some.injEq] at hp hn
            subst hp; subst hn
            simp [initParams]
          | succ j =>
            cases j with
            | zero =>
              simp only [List.get?_cons_succ, List.get?_cons_zero, Option.some.injEq,
                Prod.mk.injEq] at h
              obtain ⟨h1, h2⟩ := h
              subst h1; subst h2
              refine ⟨exec_ids tm _, ?_⟩
              intro pPrev pNext hp hn
              simp only [List.get?_cons_zero, List.get?_cons_succ, Option.some.injEq] at hp hn
              subst hp; subst hn
              simp
            | succ k => simp at h
  · rw [gen_no_handler engine q hist tools (some tm) (Or.inr hs)] at h
    simp at h

theorem C3_transcript_invariant_witness :
    (⟨[⟨"user", MessageContent.text "q"⟩,
       ⟨"assistant", MessageContent.blocks (engClaimsTool 0).content⟩,
       ⟨"user", MessageContent.results [⟨"id1", "result for toolA"⟩]⟩],
      SYSTEM_PROMPT, some [⟨"s"⟩], some "auto"⟩ : ApiParams).messages =
      (initParams "q" none (some [⟨"s"⟩])).messages ++
        ([⟨"assistant", MessageContent.blocks (engClaimsTool 0).content⟩] ++
         (if ([⟨"id1", "result for toolA"⟩] : List ToolResult).isEmpty then []
          else [⟨"user", MessageContent.results [⟨"id1", "result for toolA"⟩]⟩])) ∧
    ([⟨"id1", "result for toolA"⟩] : List ToolResult).map ToolResult.tool_use_id =
      (toolUseBlocks (engClaimsTool 0).content).map ToolUseCall.id := by
  have h := C3_transcript_invariant engClaimsTool "q" none (some [⟨"s"⟩]) tmOk 0
    (engClaimsTool 0) [⟨"id1", "result for toolA"⟩] rfl
  exact ⟨h.2 (initParams "q" none (some [⟨"s"⟩]))
    ⟨[⟨"user", MessageContent.text "q"⟩,
      ⟨"assistant", MessageContent.blocks (engClaimsTool 0).content⟩,
      ⟨"user", MessageContent.results [⟨"id1", "result for toolA"⟩]⟩],
     SYSTEM_PROMPT, some [⟨"s"⟩], some "auto"⟩ rfl rfl, h.1⟩
